import Mathlib

/-!
Formal model of the weather-dashboard ETL pipeline.

The definitions below are a shallow embedding of the Python sources
`data_transformer.py` (validation, cleaning, enrichment, duplicate check),
`weather_collector.py` (persistence) and `etl_pipeline.py` (orchestration).
Python floats are modelled as exact rationals (`Rat`), Python dicts holding
weather observations as a fixed-field structure with `Option` fields
(`none` models an absent key or a `None` value), and the sqlite table as a
list of rows holding the uniqueness-key columns plus the row id.

Because `Rat.add`, `Rat.sub` and `Rat.mul` are irreducible in this library,
the embedding uses kernel-computable wrappers (`rsub`, `rmul`, `rdist`)
built from `mkRat` on numerators and denominators; they are proved equal to
the ordinary field operations below, so theorem statements can be written
with the usual operators.
-/

/-- Floor of a rational, computed from its normalized fraction. -/
def ratFloor (q : Rat) : Int := q.num / (q.den : Int)

/-- Ceiling of a rational. -/
def ratCeil (q : Rat) : Int := -(ratFloor (-q))

/-- Python `int(...)` on a float: truncation toward zero. -/
def pyInt (q : Rat) : Int := if q.num < 0 then ratCeil q else ratFloor q

/-- Kernel-computable subtraction on `Rat`. -/
def rsub (a b : Rat) : Rat := mkRat (a.num * (b.den : Int) - b.num * (a.den : Int)) (a.den * b.den)

/-- Kernel-computable multiplication on `Rat`. -/
def rmul (a b : Rat) : Rat := mkRat (a.num * b.num) (a.den * b.den)

/-- Absolute difference of two rationals. -/
def rdist (a b : Rat) : Rat := |rsub a b|

/-- Round-half-to-even of a rational to an integer (Python's rounding mode). -/
def halfEven (q : Rat) : Int :=
  let f := ratFloor q
  if rsub q (f : Rat) < mkRat 1 2 then f
  else if mkRat 1 2 < rsub q (f : Rat) then f + 1
  else if f % 2 = 0 then f else f + 1

/-- The rational scaled by ten, kernel-computably. -/
def times10 (q : Rat) : Rat := mkRat (q.num * 10) q.den

/-- Python `round(x, 1)`: round half to even at one decimal place. -/
def pyRound1 (q : Rat) : Rat := mkRat (halfEven (times10 q)) 10

/-! ### ASCII character and string operations

Python `str.strip` and `str.title` restricted to the ASCII range, which is
all the pipeline's inputs use: whitespace is the six ASCII whitespace
characters; case mapping shifts `a-z`/`A-Z` by 32 code points.
-/

/-- ASCII whitespace, as stripped by Python `str.strip()`. -/
def pyIsWS (c : Char) : Bool :=
  c.toNat = 32 || c.toNat = 9 || c.toNat = 10 || c.toNat = 13 || c.toNat = 11 || c.toNat = 12

/-- ASCII lower-case letter test. -/
def isLowerA (c : Char) : Bool := 97 ≤ c.toNat && c.toNat ≤ 122

/-- ASCII upper-case letter test. -/
def isUpperA (c : Char) : Bool := 65 ≤ c.toNat && c.toNat ≤ 90

/-- ASCII cased-letter test (what Python `title` treats as a word character). -/
def isAlphaA (c : Char) : Bool := isUpperA c || isLowerA c

/-- Map an ASCII lower-case letter to upper case; other characters unchanged. -/
def upChar (c : Char) : Char := if isLowerA c then Char.ofNat (c.toNat - 32) else c

/-- Map an ASCII upper-case letter to lower case; other characters unchanged. -/
def loChar (c : Char) : Char := if isUpperA c then Char.ofNat (c.toNat + 32) else c

/-- One character of Python `str.title()`: upper-case a cased character that
follows a non-cased one, lower-case every other cased character.  `prev` says
whether the previous character was cased. -/
def titleStep (prev : Bool) (c : Char) : Char :=
  if isAlphaA c then (if prev then loChar c else upChar c) else c

/-- Python `str.title()` over a character list, threading the previous
character's casedness. -/
def titleMap : Bool → List Char → List Char
  | _, [] => []
  | prev, c :: cs => titleStep prev c :: titleMap (isAlphaA c) cs

/-- Drop leading ASCII whitespace. -/
def ltrimC (l : List Char) : List Char := l.dropWhile pyIsWS

/-- Drop trailing ASCII whitespace. -/
def rtrimC (l : List Char) : List Char := (ltrimC l.reverse).reverse

/-- Python `str.strip()` on the character list. -/
def trimC (l : List Char) : List Char := rtrimC (ltrimC l)

/-- Python `s.strip()`. -/
def pyStrip (s : String) : String := String.mk (trimC s.data)

/-- Python `s.strip().title()`. -/
def pyStripTitle (s : String) : String := String.mk (titleMap false (trimC s.data))

/-! ### Rendering numbers into message strings

Python f-strings interpolate the numeric value into validation messages.
The embedding renders rationals with digits, `-` and `/` only; every
character it produces has code point below 58, which is what the duplicate
substring check below relies on.
-/

/-- Decimal digits of `n`, most significant first; the first argument is fuel. -/
def digitsAux : Nat → Nat → List Char
  | 0, _ => []
  | fuel + 1, n => if n = 0 then [] else digitsAux fuel (n / 10) ++ [Char.ofNat (48 + n % 10)]

/-- Decimal rendering of a natural number. -/
def natStr (n : Nat) : String := if n = 0 then "0" else String.mk (digitsAux (n + 1) n)

/-- Decimal rendering of an integer. -/
def intStr (n : Int) : String := if n < 0 then "-" ++ natStr n.natAbs else natStr n.natAbs

/-- Rendering of a rational: integer part when the denominator is one,
`num/den` otherwise. -/
def ratStr (q : Rat) : String := if q.den = 1 then intStr q.num else intStr q.num ++ "/" ++ natStr q.den

/-! ### Substring search (Python's `in` on strings) -/

/-- Does `pat` occur at the very start of `s`? -/
def isSubAt : List Char → List Char → Bool
  | [], _ => true
  | _ :: _, [] => false
  | p :: ps, c :: cs => p == c && isSubAt ps cs

/-- Does `pat` occur anywhere in `s`?  Models Python `pat in s`. -/
def containsSub (pat : List Char) : List Char → Bool
  | [] => isSubAt pat []
  | c :: cs => isSubAt pat (c :: cs) || containsSub pat cs

/-- Python `any('Duplicate' in issue for issue in issues)`. -/
def hasDupIssue (issues : List String) : Bool :=
  issues.any (fun i => containsSub "Duplicate".data i.data)

/-! ### Data model

A `WeatherRecord` is the dict threaded through the pipeline; `none` models a
missing key or a `None` value.  `date` and `timestamp` are always produced by
the parser, so they are plain fields; `timestamp` is kept structured so the
deduplicator can take second-level differences the way sqlite's
`strftime('%s', ...)` does.
-/

/-- Timestamp with second precision, as stored in the `timestamp` column. -/
structure DateTime where
  year : Int
  month : Nat
  day : Nat
  hour : Nat
  minute : Nat
  second : Nat
deriving DecidableEq

/-- Days since 1970-01-01 of a proleptic-Gregorian civil date. -/
def daysFromCivil (y : Int) (m d : Nat) : Int :=
  let yAdj : Int := if m ≤ 2 then y - 1 else y
  let era : Int := Int.fdiv yAdj 400
  let yoe : Int := yAdj - era * 400
  let mp : Nat := if 2 < m then m - 3 else m + 9
  let doy : Int := ((153 * mp + 2) / 5 + d - 1 : Nat)
  let doe : Int := yoe * 365 + yoe / 4 - yoe / 100 + doy
  era * 146097 + doe - 719468

/-- Seconds since the epoch: what sqlite's `strftime('%s', timestamp)` yields
on the stored `YYYY-MM-DD HH:MM:SS` text. -/
def toSec (t : DateTime) : Int :=
  daysFromCivil t.year t.month t.day * 86400 + t.hour * 3600 + t.minute * 60 + t.second

/-- One weather observation dict. -/
structure WeatherRecord where
  city : Option String
  country : Option String
  latitude : Option Rat
  longitude : Option Rat
  date : String
  temp_c : Option Rat
  feels_like_c : Option Rat
  condition : Option String
  humidity : Option Rat
  wind_speed_kmph : Option Rat
  pressure_mb : Option Rat
  visibility_km : Option Rat
  uv_index : Option Rat
  timestamp : DateTime
  heat_category : Option String
  comfort_level : Option String
  wind_category : Option String
deriving DecidableEq

/-- One row of the `weather_data` table: the uniqueness-key columns and the
autoincrement id (the remaining columns play no role in any contract here). -/
structure StoredRow where
  id : Nat
  city : String
  country : String
  date : String
  timestamp : DateTime
deriving DecidableEq

/-- The mutable counters of one pipeline run (`self.stats` in `WeatherETLPipeline`). -/
structure PipelineStats where
  attempted : Nat
  succeeded : Nat
  failed : Nat
  validation_errors : Nat
  duplicates : Nat
deriving DecidableEq

/-- Counters as initialised by the pipeline constructor. -/
def zeroStats : PipelineStats := ⟨0, 0, 0, 0, 0⟩

/-! ### Validation (`data_transformer.py`) -/

/-- The missing-required-field message, with the field name appended. -/
def missingFieldMsg (f : String) : String := "Missing required field: " ++ f

/-- The out-of-range temperature message, with the value interpolated. -/
def tempRangeMsg (t : Rat) : String := "Temperature " ++ ratStr t ++ "°C is outside reasonable range"

/-- The invalid humidity message, with the value interpolated. -/
def humRangeMsg (h : Rat) : String := "Humidity " ++ ratStr h ++ "% is invalid"

/-- The invalid wind-speed message, with the value interpolated. -/
def windRangeMsg (w : Rat) : String := "Wind speed " ++ ratStr w ++ " km/h seems invalid"

/-- The feels-like gap message, with the absolute difference interpolated. -/
def feelsMsg (d : Rat) : String := "Feels like temperature differs by " ++ ratStr d ++ "°C from actual"

/-- The duplicate message, with the existing row id interpolated. -/
def dupMsg (i : Nat) : String := "Duplicate of record " ++ natStr i

/-- Model of `validate_temperature`: reject a missing value and values outside [-90, 60] °C. -/
def validate_temperature (t : Option Rat) : Bool × String :=
  match t with
  | none => (false, "Temperature is missing")
  | some t => if t < -90 ∨ 60 < t then (false, tempRangeMsg t) else (true, "Valid")

/-- Model of `validate_humidity`: reject a missing value and values outside [0, 100] %. -/
def validate_humidity (h : Option Rat) : Bool × String :=
  match h with
  | none => (false, "Humidity is missing")
  | some h => if h < 0 ∨ 100 < h then (false, humRangeMsg h) else (true, "Valid")

/-- Model of `validate_wind_speed`: reject a missing value and values outside [0, 500] km/h. -/
def validate_wind_speed (w : Option Rat) : Bool × String :=
  match w with
  | none => (false, "Wind speed is missing")
  | some w => if w < 0 ∨ 500 < w then (false, windRangeMsg w) else (true, "Valid")

/-- The required-field loop of `validate_weather_record`, in source order. -/
def requiredFieldIssues (r : WeatherRecord) : List String :=
  (if r.city = none then [missingFieldMsg "city"] else []) ++
  (if r.country = none then [missingFieldMsg "country"] else []) ++
  (if r.temp_c = none then [missingFieldMsg "temp_c"] else []) ++
  (if r.humidity = none then [missingFieldMsg "humidity"] else []) ++
  (if r.condition = none then [missingFieldMsg "condition"] else [])

/-- Model of `validate_weather_record`: missing required fields short-circuit; otherwise
range checks and the feels-like gap check accumulate issues, and the record is
valid iff the issue list is empty. -/
def validate_weather_record (r : WeatherRecord) : Bool × List String :=
  let issues := requiredFieldIssues r
  if issues.isEmpty then
    let tv := validate_temperature r.temp_c
    let issues := issues ++ (if tv.1 then [] else [tv.2])
    let hv := validate_humidity r.humidity
    let issues := issues ++ (if hv.1 then [] else [hv.2])
    let wv := validate_wind_speed r.wind_speed_kmph
    let issues := issues ++ (if wv.1 then [] else [wv.2])
    let issues :=
      match r.feels_like_c, r.temp_c with
      | some fl, some t =>
        if (30 : Rat) < rdist fl t then issues ++ [feelsMsg (rdist fl t)] else issues
      | _, _ => issues
    (issues.isEmpty, issues)
  else (false, issues)

/-! ### Cleaning and enrichment (`data_transformer.py`) -/

/-- Python's `if 'f' in record and record['f']:` guard around a string update:
missing, `None` and empty values are left untouched. -/
def cleanStrField (f : String → String) : Option String → Option String
  | none => none
  | some s => if s = "" then some s else some (f s)

/-- Model of `clean_weather_record`: title-case city and condition, trim country, round
the float fields to one decimal, coerce humidity and uv-index to int. -/
def clean_weather_record (r : WeatherRecord) : WeatherRecord :=
  { r with
    city := cleanStrField pyStripTitle r.city
    country := cleanStrField pyStrip r.country
    temp_c := r.temp_c.map pyRound1
    feels_like_c := r.feels_like_c.map pyRound1
    wind_speed_kmph := r.wind_speed_kmph.map pyRound1
    humidity := r.humidity.map (fun h => ((pyInt h : Int) : Rat))
    uv_index := r.uv_index.map (fun u => ((pyInt u : Int) : Rat))
    condition := cleanStrField pyStripTitle r.condition }

/-- Model of `calculate_derived_fields`: heat category from temperature, comfort level
from temperature and humidity (first matching rule wins), wind category from
wind speed. -/
def calculate_derived_fields (r : WeatherRecord) : WeatherRecord :=
  let r1 :=
    match r.temp_c with
    | some temp =>
      { r with heat_category := some (
          if 35 ≤ temp then "Extreme Heat"
          else if 30 ≤ temp then "Hot"
          else if 20 ≤ temp then "Warm"
          else if 10 ≤ temp then "Mild"
          else if 0 ≤ temp then "Cool"
          else "Cold") }
    | none => r
  let r2 :=
    match r.temp_c, r.humidity with
    | some temp, some humidity =>
      { r1 with comfort_level := some (
          if 20 ≤ temp ∧ temp ≤ 26 ∧ 30 ≤ humidity ∧ humidity ≤ 60 then "Comfortable"
          else if 30 < temp ∨ 70 < humidity then "Uncomfortable"
          else if temp < 10 then "Cold"
          else "Moderate") }
    | _, _ => r1
  match r.wind_speed_kmph with
  | some wind =>
    { r2 with wind_category := some (
        if wind < 12 then "Calm"
        else if wind < 30 then "Breezy"
        else if wind < 50 then "Windy"
        else "Very Windy") }
  | none => r2

/-! ### Deduplication and persistence -/

/-- Model of `check_for_duplicate`: find a stored row with the same city, country and
date whose timestamp is strictly within one hour (3600 s) of the candidate's.
A `None` city or country matches no row, as SQL `= NULL` does. -/
def check_for_duplicate (db : List StoredRow) (r : WeatherRecord) : Bool × Option Nat :=
  match r.city, r.country with
  | some c, some co =>
    match db.find? (fun row =>
        row.city = c && row.country = co && row.date = r.date &&
        (toSec row.timestamp - toSec r.timestamp).natAbs < 3600) with
    | some row => (true, some row.id)
    | none => (false, none)
  | _, _ => (false, none)

/-- Violation of the `UNIQUE(city, country, date, timestamp)` key. -/
def uniqueConflict (db : List StoredRow) (c co date : String) (ts : DateTime) : Bool :=
  db.any (fun row => row.city = c && row.country = co && row.date = date && row.timestamp = ts)

/-- Model of `save_weather_data`: insert the row; an integrity error — uniqueness-key
conflict, or a NULL in a NOT NULL column — is caught and reported as `false`
with the table unchanged. -/
def save_weather_data (db : List StoredRow) (r : WeatherRecord) : Bool × List StoredRow :=
  match r.city, r.country with
  | some c, some co =>
    if uniqueConflict db c co r.date r.timestamp then (false, db)
    else (true, db ++ [⟨db.length + 1, c, co, r.date, r.timestamp⟩])
  | _, _ => (false, db)

/-- Model of `load_weather_data`: skip invalid records and records whose issue list
mentions a duplicate; otherwise save. -/
def load_weather_data (db : List StoredRow) (r : WeatherRecord) (is_valid : Bool)
    (issues : List String) : Bool × List StoredRow :=
  if !is_valid then (false, db)
  else if hasDupIssue issues then (false, db)
  else save_weather_data db r

/-! ### Orchestration (`etl_pipeline.py`)

`run_etl` is modelled over the outcome of the extract and parse stages:
`none` is a failed extraction, `some none` a failed parse, and
`some (some raw)` the parsed raw record, which then flows through cleaning,
validation, enrichment, duplicate check and load exactly as in the source.
-/

/-- Model of `run_etl` for one location: returns the updated counters, the success
flag and the updated table. -/
def run_etl (fetched : Option (Option WeatherRecord)) (db : List StoredRow)
    (stats : PipelineStats) : PipelineStats × Bool × List StoredRow :=
  let stats1 := { stats with attempted := stats.attempted + 1 }
  match fetched with
  | none => ({ stats1 with failed := stats1.failed + 1 }, false, db)
  | some none => ({ stats1 with failed := stats1.failed + 1 }, false, db)
  | some (some raw) =>
    let record := clean_weather_record raw
    let vres := validate_weather_record record
    let record := calculate_derived_fields record
    let dres := check_for_duplicate db record
    let issues := if dres.1 then vres.2 ++ [dupMsg (dres.2.getD 0)] else vres.2
    let stats2 :=
      if vres.1 then stats1
      else { stats1 with validation_errors := stats1.validation_errors + 1 }
    let stats3 :=
      if hasDupIssue issues then { stats2 with duplicates := stats2.duplicates + 1 } else stats2
    let lres := load_weather_data db record vres.1 issues
    let stats4 := if lres.1 then { stats3 with succeeded := stats3.succeeded + 1 } else stats3
    (stats4, lres.1, lres.2)

/-- Model of `run_batch_etl`: run the single-location pipeline over each location in
order, threading the table and the counters. -/
def run_batch_etl : List (Option (Option WeatherRecord)) → List StoredRow → PipelineStats →
    PipelineStats × List StoredRow
  | [], db, stats => (stats, db)
  | loc :: rest, db, stats =>
    let res := run_etl loc db stats
    run_batch_etl rest res.2.2 res.1

/-- The table contents after a batch (the counters do not influence it). -/
def dbAfter : List (Option (Option WeatherRecord)) → List StoredRow → List StoredRow
  | [], db => db
  | loc :: rest, db => dbAfter rest (run_etl loc db zeroStats).2.2

/-- Every location in the list loads successfully, each against the table
state its predecessors left behind. -/
def allLoadOk : List (Option (Option WeatherRecord)) → List StoredRow → Bool
  | [], _ => true
  | loc :: rest, db =>
    (run_etl loc db zeroStats).2.1 && allLoadOk rest (run_etl loc db zeroStats).2.2

/-- The four per-outcome counters, in the order succeeded, failed,
validation-errors, duplicates. -/
def fourOf (s : PipelineStats) : Nat × Nat × Nat × Nat :=
  (s.succeeded, s.failed, s.validation_errors, s.duplicates)

/-- Exactly one of the four outcome counters grew by one between `s` and `t`. -/
def exactlyOneIncr (s t : PipelineStats) : Prop :=
  fourOf t = (s.succeeded + 1, s.failed, s.validation_errors, s.duplicates) ∨
  fourOf t = (s.succeeded, s.failed + 1, s.validation_errors, s.duplicates) ∨
  fourOf t = (s.succeeded, s.failed, s.validation_errors + 1, s.duplicates) ∨
  fourOf t = (s.succeeded, s.failed, s.validation_errors, s.duplicates + 1)

instance (s t : PipelineStats) : Decidable (exactlyOneIncr s t) := by
  unfold exactlyOneIncr
  infer_instance

/-! ### Concrete inputs used by the scenario claims -/

/-- The end-to-end scenario input: (city="athens", country="GREECE",
temp=25.567, humidity=65.7, condition="  partly cloudy  ") and no other
fields; 25.567 and 65.7 are written as exact fractions. -/
def c1Input : WeatherRecord where
  city := some "athens"
  country := some "GREECE"
  latitude := none
  longitude := none
  date := "2025-06-01"
  temp_c := some (mkRat 25567 1000)
  feels_like_c := none
  condition := some "  partly cloudy  "
  humidity := some (mkRat 657 10)
  wind_speed_kmph := none
  pressure_mb := none
  visibility_km := none
  uv_index := none
  timestamp := ⟨2025, 6, 1, 10, 0, 0⟩
  heat_category := none
  comfort_level := none
  wind_category := none

/-- A fully populated, in-range record (the source's `good_record` test
fixture, temp 25.5, feels-like 27, humidity 65, wind 15). -/
def goodRaw : WeatherRecord where
  city := some "athens"
  country := some "Greece"
  latitude := none
  longitude := none
  date := "2025-06-01"
  temp_c := some (mkRat 255 10)
  feels_like_c := some (mkRat 27 1)
  condition := some "Partly Cloudy"
  humidity := some (mkRat 65 1)
  wind_speed_kmph := some (mkRat 15 1)
  pressure_mb := none
  visibility_km := none
  uv_index := none
  timestamp := ⟨2025, 6, 1, 10, 0, 0⟩
  heat_category := none
  comfort_level := none
  wind_category := none

/-- A record whose only anomaly is a feels-like/actual gap above 30 °C:
temp 20, feels-like −15, humidity 50, wind 10, all fields present. -/
def gapInput : WeatherRecord where
  city := some "Athens"
  country := some "Greece"
  latitude := none
  longitude := none
  date := "2025-06-01"
  temp_c := some (mkRat 20 1)
  feels_like_c := some (mkRat (-15) 1)
  condition := some "Sunny"
  humidity := some (mkRat 50 1)
  wind_speed_kmph := some (mkRat 10 1)
  pressure_mb := none
  visibility_km := none
  uv_index := none
  timestamp := ⟨2025, 6, 1, 10, 0, 0⟩
  heat_category := none
  comfort_level := none
  wind_category := none

/-- A store holding one Athens observation captured 2025-06-01 10:00:00,
with row id 1. -/
def dedupStore : List StoredRow := [⟨1, "Athens", "Greece", "2025-06-01", ⟨2025, 6, 1, 10, 0, 0⟩⟩]

/-- A candidate for the same city, country and date captured at 10:45:00
(45 minutes after the stored row). -/
def dedupNear : WeatherRecord :=
  { goodRaw with
    city := some "Athens"
    country := some "Greece"
    timestamp := ⟨2025, 6, 1, 10, 45, 0⟩ }

/-- The same candidate captured at 12:00:00 (two hours after the stored row). -/
def dedupFar : WeatherRecord := { dedupNear with timestamp := ⟨2025, 6, 1, 12, 0, 0⟩ }

/-- A raw record that both fails validation (no wind speed) and duplicates
the stored Athens observation within the one-hour window. -/
def dupInvalidRaw : WeatherRecord := { dedupNear with wind_speed_kmph := none }

/-- A record missing `condition` whose numeric fields are wildly out of
range (temp 150, humidity 200, wind −10). -/
def noConditionRaw : WeatherRecord :=
  { goodRaw with
    condition := none
    temp_c := some (mkRat 150 1)
    humidity := some (mkRat 200 1)
    wind_speed_kmph := some (mkRat (-10) 1) }

/-- A fully in-range record that simply lacks the wind-speed field. -/
def noWindRaw : WeatherRecord := { goodRaw with wind_speed_kmph := none }

/-- Validation (after cleaning) fails for this raw record. -/
def recInvalid (raw : WeatherRecord) : Bool :=
  !(validate_weather_record (clean_weather_record raw)).1

/-- The cleaned, enriched record duplicates a stored row of `db`. -/
def recDup (db : List StoredRow) (raw : WeatherRecord) : Bool :=
  (check_for_duplicate db (calculate_derived_fields (clean_weather_record raw))).1

/-- Saving the cleaned, enriched record into `db` would succeed. -/
def recSaveOk (db : List StoredRow) (raw : WeatherRecord) : Bool :=
  (save_weather_data db (calculate_derived_fields (clean_weather_record raw))).1

/-! ### Supporting lemmas -/

theorem rsub_eq (a b : Rat) : rsub a b = a - b := by
  rw [rsub, Rat.mkRat_eq_div]
  push_cast
  conv_rhs => rw [← Rat.num_div_den a, ← Rat.num_div_den b]
  rw [div_sub_div _ _ (by positivity) (by positivity)]
  congr 1
  ring

theorem rmul_eq (a b : Rat) : rmul a b = a * b := by
  rw [rmul, Rat.mkRat_eq_div]
  push_cast
  conv_rhs => rw [← Rat.num_div_den a, ← Rat.num_div_den b]
  rw [div_mul_div_comm]

theorem rdist_eq (a b : Rat) : rdist a b = |a - b| := by
  rw [rdist, rsub_eq]

theorem times10_eq (q : Rat) : times10 q = q * 10 := by
  rw [times10, Rat.mkRat_eq_div]
  push_cast
  conv_rhs => rw [← Rat.num_div_den q]
  rw [div_mul_eq_mul_div]

theorem ratFloor_intCast (n : Int) : ratFloor ((n : Int) : Rat) = n := by
  simp [ratFloor, Rat.num_intCast, Rat.den_intCast]

theorem rsub_self_intCast (n : Int) : rsub ((n : Int) : Rat) ((n : Int) : Rat) = 0 := by
  rw [rsub_eq, sub_self]

theorem halfEven_intCast (n : Int) : halfEven ((n : Int) : Rat) = n := by
  unfold halfEven
  rw [ratFloor_intCast]
  simp only [rsub_self_intCast]
  rw [if_pos (by decide : (0 : Rat) < mkRat 1 2)]

theorem pyInt_intCast (n : Int) : pyInt ((n : Int) : Rat) = n := by
  unfold pyInt ratCeil
  rw [Rat.num_intCast]
  by_cases h : n < 0
  · rw [if_pos h, ← Int.cast_neg, ratFloor_intCast, neg_neg]
  · rw [if_neg h, ratFloor_intCast]

theorem mkRat_ten_cancel (n : Int) : times10 (mkRat n 10) = ((n : Int) : Rat) := by
  rw [times10_eq, Rat.mkRat_eq_div]
  push_cast
  rw [div_mul_cancel₀]
  norm_num

theorem pyRound1_idem (q : Rat) : pyRound1 (pyRound1 q) = pyRound1 q := by
  rw [pyRound1, pyRound1, mkRat_ten_cancel, halfEven_intCast]

theorem toNat_ofNat_valid (n : Nat) (h : n < 55296) : (Char.ofNat n).toNat = n := by
  unfold Char.ofNat
  rw [dif_pos (Or.inl h)]
  rfl

theorem upChar_toNat (c : Char) (h : isLowerA c = true) : (upChar c).toNat = c.toNat - 32 := by
  have hle : c.toNat ≤ 122 := by
    simp only [isLowerA, Bool.and_eq_true, decide_eq_true_eq] at h
    exact h.2
  rw [upChar, if_pos h, toNat_ofNat_valid _ (by omega)]

theorem loChar_toNat (c : Char) (h : isUpperA c = true) : (loChar c).toNat = c.toNat + 32 := by
  have hle : c.toNat ≤ 90 := by
    simp only [isUpperA, Bool.and_eq_true, decide_eq_true_eq] at h
    exact h.2
  rw [loChar, if_pos h, toNat_ofNat_valid _ (by omega)]

theorem isAlphaA_upChar (c : Char) : isAlphaA (upChar c) = isAlphaA c := by
  by_cases h : isLowerA c = true
  · have hn := upChar_toNat c h
    have h2 : 97 ≤ c.toNat ∧ c.toNat ≤ 122 := by
      simpa only [isLowerA, Bool.and_eq_true, decide_eq_true_eq] using h
    rw [Bool.eq_iff_iff]
    simp only [isAlphaA, isUpperA, isLowerA, hn, Bool.or_eq_true, Bool.and_eq_true,
      decide_eq_true_eq]
    omega
  · have hc : upChar c = c := by rw [upChar, if_neg h]
    rw [hc]

theorem isAlphaA_loChar (c : Char) : isAlphaA (loChar c) = isAlphaA c := by
  by_cases h : isUpperA c = true
  · have hn := loChar_toNat c h
    have h2 : 65 ≤ c.toNat ∧ c.toNat ≤ 90 := by
      simpa only [isUpperA, Bool.and_eq_true, decide_eq_true_eq] using h
    rw [Bool.eq_iff_iff]
    simp only [isAlphaA, isUpperA, isLowerA, hn, Bool.or_eq_true, Bool.and_eq_true,
      decide_eq_true_eq]
    omega
  · have hc : loChar c = c := by rw [loChar, if_neg h]
    rw [hc]

theorem pyIsWS_upChar (c : Char) : pyIsWS (upChar c) = pyIsWS c := by
  by_cases h : isLowerA c = true
  · have hn := upChar_toNat c h
    have h2 : 97 ≤ c.toNat ∧ c.toNat ≤ 122 := by
      simpa only [isLowerA, Bool.and_eq_true, decide_eq_true_eq] using h
    rw [Bool.eq_iff_iff]
    simp only [pyIsWS, hn, Bool.or_eq_true, decide_eq_true_eq]
    omega
  · have hc : upChar c = c := by rw [upChar, if_neg h]
    rw [hc]

theorem pyIsWS_loChar (c : Char) : pyIsWS (loChar c) = pyIsWS c := by
  by_cases h : isUpperA c = true
  · have hn := loChar_toNat c h
    have h2 : 65 ≤ c.toNat ∧ c.toNat ≤ 90 := by
      simpa only [isUpperA, Bool.and_eq_true, decide_eq_true_eq] using h
    rw [Bool.eq_iff_iff]
    simp only [pyIsWS, hn, Bool.or_eq_true, decide_eq_true_eq]
    omega
  · have hc : loChar c = c := by rw [loChar, if_neg h]
    rw [hc]

theorem upChar_upChar (c : Char) : upChar (upChar c) = upChar c := by
  by_cases h : isLowerA c = true
  · have hn := upChar_toNat c h
    have h2 : 97 ≤ c.toNat ∧ c.toNat ≤ 122 := by
      simpa only [isLowerA, Bool.and_eq_true, decide_eq_true_eq] using h
    have hfalse : isLowerA (upChar c) = false := by
      rw [Bool.eq_false_iff]
      intro hcon
      simp only [isLowerA, hn, Bool.and_eq_true, decide_eq_true_eq] at hcon
      omega
    conv_lhs => rw [upChar]
    rw [hfalse]
    simp
  · have hc : upChar c = c := by rw [upChar, if_neg h]
    rw [hc, hc]

theorem loChar_loChar (c : Char) : loChar (loChar c) = loChar c := by
  by_cases h : isUpperA c = true
  · have hn := loChar_toNat c h
    have h2 : 65 ≤ c.toNat ∧ c.toNat ≤ 90 := by
      simpa only [isUpperA, Bool.and_eq_true, decide_eq_true_eq] using h
    have hfalse : isUpperA (loChar c) = false := by
      rw [Bool.eq_false_iff]
      intro hcon
      simp only [isUpperA, hn, Bool.and_eq_true, decide_eq_true_eq] at hcon
      omega
    conv_lhs => rw [loChar]
    rw [hfalse]
    simp
  · have hc : loChar c = c := by rw [loChar, if_neg h]
    rw [hc, hc]

theorem titleStep_isAlphaA (prev : Bool) (c : Char) :
    isAlphaA (titleStep prev c) = isAlphaA c := by
  unfold titleStep
  by_cases ha : isAlphaA c = true
  · rw [if_pos ha]
    cases prev
    · rw [if_neg (by decide : ¬(false = true)), isAlphaA_upChar]
    · rw [if_pos rfl, isAlphaA_loChar]
  · rw [if_neg ha]

theorem titleStep_pyIsWS (prev : Bool) (c : Char) :
    pyIsWS (titleStep prev c) = pyIsWS c := by
  unfold titleStep
  by_cases ha : isAlphaA c = true
  · rw [if_pos ha]
    cases prev
    · rw [if_neg (by decide : ¬(false = true)), pyIsWS_upChar]
    · rw [if_pos rfl, pyIsWS_loChar]
  · rw [if_neg ha]

theorem titleStep_titleStep (prev : Bool) (c : Char) :
    titleStep prev (titleStep prev c) = titleStep prev c := by
  by_cases ha : isAlphaA c = true
  · cases prev
    · have hc : titleStep false c = upChar c := by
        unfold titleStep
        rw [if_pos ha, if_neg (by decide : ¬(false = true))]
      rw [hc]
      unfold titleStep
      rw [if_pos (by rw [isAlphaA_upChar]; exact ha), if_neg (by decide : ¬(false = true))]
      exact upChar_upChar c
    · have hc : titleStep true c = loChar c := by
        unfold titleStep
        rw [if_pos ha, if_pos rfl]
      rw [hc]
      unfold titleStep
      rw [if_pos (by rw [isAlphaA_loChar]; exact ha), if_pos rfl]
      exact loChar_loChar c
  · have hc : titleStep prev c = c := by
      unfold titleStep
      rw [if_neg ha]
    rw [hc, hc]

theorem titleMap_cons (b : Bool) (c : Char) (cs : List Char) :
    titleMap b (c :: cs) = titleStep b c :: titleMap (isAlphaA c) cs := rfl

theorem titleMap_titleMap (l : List Char) :
    ∀ b : Bool, titleMap b (titleMap b l) = titleMap b l := by
  induction l with
  | nil => intro b; rfl
  | cons c cs ih =>
    intro b
    rw [titleMap_cons, titleMap_cons, titleStep_titleStep, titleStep_isAlphaA, ih]

theorem titleMap_head_ws (l : List Char) (b : Bool) :
    (titleMap b l).head?.map pyIsWS = l.head?.map pyIsWS := by
  cases l with
  | nil => rfl
  | cons c cs =>
    rw [titleMap_cons, List.head?_cons, List.head?_cons, Option.map_some', Option.map_some',
      titleStep_pyIsWS]

theorem titleMap_getLast_ws (l : List Char) :
    ∀ b : Bool, (titleMap b l).getLast?.map pyIsWS = l.getLast?.map pyIsWS := by
  induction l with
  | nil => intro b; rfl
  | cons c cs ih =>
    intro b
    cases cs with
    | nil =>
      rw [show titleMap b [c] = [titleStep b c] from rfl]
      rw [List.getLast?_singleton, List.getLast?_singleton, Option.map_some', Option.map_some',
        titleStep_pyIsWS]
    | cons d ds =>
      rw [titleMap_cons, titleMap_cons, List.getLast?_cons_cons, List.getLast?_cons_cons,
        ← titleMap_cons, ih (isAlphaA c)]

theorem ltrimC_eq_self (l : List Char) (h : ∀ c, l.head? = some c → pyIsWS c = false) :
    ltrimC l = l := by
  cases l with
  | nil => rfl
  | cons a t =>
    unfold ltrimC
    rw [List.dropWhile_cons, h a rfl]
    simp

theorem head_ltrimC_not_ws (l : List Char) : ∀ c, (ltrimC l).head? = some c → pyIsWS c = false := by
  induction l with
  | nil => intro c h; simp [ltrimC] at h
  | cons a t ih =>
    intro c h
    unfold ltrimC at h
    rw [List.dropWhile_cons] at h
    by_cases ha : pyIsWS a = true
    · rw [if_pos ha] at h
      exact ih c h
    · rw [if_neg ha] at h
      simp only [List.head?_cons, Option.some.injEq] at h
      rw [← h]
      exact Bool.eq_false_iff.mpr ha

theorem rtrimC_eq_self (l : List Char) (h : ∀ c, l.reverse.head? = some c → pyIsWS c = false) :
    rtrimC l = l := by
  unfold rtrimC
  rw [ltrimC_eq_self _ h, List.reverse_reverse]

theorem rev_rtrimC (l : List Char) : (rtrimC l).reverse = ltrimC l.reverse := by
  unfold rtrimC
  rw [List.reverse_reverse]

theorem rtrimC_pre (l : List Char) : rtrimC l <+: l := by
  have h : (rtrimC l).reverse <:+ l.reverse := by
    rw [rev_rtrimC]
    exact List.dropWhile_suffix _
  exact List.reverse_suffix.mp h

theorem head?_of_pre {α : Type} {l₁ l₂ : List α} (h : l₁ <+: l₂) (hne : l₁ ≠ []) :
    l₂.head? = l₁.head? := by
  obtain ⟨t, rfl⟩ := h
  cases l₁ with
  | nil => exact absurd rfl hne
  | cons a s => rfl

theorem ltrimC_ltrimC (l : List Char) : ltrimC (ltrimC l) = ltrimC l :=
  ltrimC_eq_self _ (head_ltrimC_not_ws l)

theorem rtrimC_rtrimC (l : List Char) : rtrimC (rtrimC l) = rtrimC l := by
  conv_lhs => rw [rtrimC, rev_rtrimC, ltrimC_ltrimC]
  rfl

theorem head_trimC_not_ws (l : List Char) : ∀ c, (trimC l).head? = some c → pyIsWS c = false := by
  intro c h
  have hne : trimC l ≠ [] := by
    intro hnil
    rw [hnil] at h
    simp at h
  have hh := head?_of_pre (rtrimC_pre (ltrimC l)) hne
  exact head_ltrimC_not_ws l c (by rw [hh]; exact h)

theorem revhead_trimC_not_ws (l : List Char) :
    ∀ c, (trimC l).reverse.head? = some c → pyIsWS c = false := by
  intro c h
  rw [show (trimC l).reverse = ltrimC (ltrimC l).reverse from rev_rtrimC (ltrimC l)] at h
  exact head_ltrimC_not_ws _ c h

theorem trimC_trimC (l : List Char) : trimC (trimC l) = trimC l := by
  show rtrimC (ltrimC (trimC l)) = trimC l
  rw [ltrimC_eq_self _ (head_trimC_not_ws l)]
  exact rtrimC_rtrimC _

theorem trimC_titleMap_trimC (l : List Char) :
    trimC (titleMap false (trimC l)) = titleMap false (trimC l) := by
  have hlt : ltrimC (titleMap false (trimC l)) = titleMap false (trimC l) := by
    apply ltrimC_eq_self
    intro c hc
    have hmap := titleMap_head_ws (trimC l) false
    rw [hc] at hmap
    cases hm : (trimC l).head? with
    | none => rw [hm, Option.map_some', Option.map_none'] at hmap; exact absurd hmap (by simp)
    | some a =>
      rw [hm, Option.map_some', Option.map_some'] at hmap
      rw [Option.some.injEq] at hmap
      rw [hmap]
      exact head_trimC_not_ws l a hm
  have hrt : rtrimC (titleMap false (trimC l)) = titleMap false (trimC l) := by
    apply rtrimC_eq_self
    intro c hc
    rw [List.head?_reverse] at hc
    have hmap := titleMap_getLast_ws (trimC l) false
    rw [hc] at hmap
    cases hm : (trimC l).getLast? with
    | none => rw [hm, Option.map_some', Option.map_none'] at hmap; exact absurd hmap (by simp)
    | some a =>
      rw [hm, Option.map_some', Option.map_some'] at hmap
      rw [Option.some.injEq] at hmap
      rw [hmap]
      exact revhead_trimC_not_ws l a (by rw [List.head?_reverse]; exact hm)
  show rtrimC (ltrimC (titleMap false (trimC l))) = _
  rw [hlt, hrt]

theorem pyStripTitle_idem (s : String) : pyStripTitle (pyStripTitle s) = pyStripTitle s := by
  unfold pyStripTitle
  congr 1
  rw [show (String.mk (titleMap false (trimC s.data))).data = titleMap false (trimC s.data) from
    rfl]
  rw [trimC_titleMap_trimC, titleMap_titleMap]

theorem pyStrip_idem (s : String) : pyStrip (pyStrip s) = pyStrip s := by
  unfold pyStrip
  congr 1
  rw [show (String.mk (trimC s.data)).data = trimC s.data from rfl]
  exact trimC_trimC _

theorem digitsAux_chars (fuel : Nat) : ∀ n c, c ∈ digitsAux fuel n → c.toNat < 58 := by
  induction fuel with
  | zero => intro n c h; simp [digitsAux] at h
  | succ fuel ih =>
    intro n c h
    unfold digitsAux at h
    by_cases hn : n = 0
    · rw [if_pos hn] at h
      simp at h
    · rw [if_neg hn] at h
      rcases List.mem_append.mp h with h1 | h2
      · exact ih (n / 10) c h1
      · rw [List.mem_singleton] at h2
        rw [h2, toNat_ofNat_valid _ (by omega)]
        omega

theorem natStr_chars (n : Nat) : ∀ c ∈ (natStr n).data, c.toNat < 58 := by
  intro c h
  unfold natStr at h
  by_cases hn : n = 0
  · rw [if_pos hn] at h
    simp only [show ("0" : String).data = ['0'] from rfl, List.mem_singleton] at h
    rw [h]
    decide
  · rw [if_neg hn] at h
    exact digitsAux_chars (n + 1) n c h

theorem intStr_chars (n : Int) : ∀ c ∈ (intStr n).data, c.toNat < 58 := by
  intro c h
  unfold intStr at h
  by_cases hn : n < 0
  · rw [if_pos hn, String.data_append] at h
    rcases List.mem_append.mp h with h1 | h2
    · simp only [show ("-" : String).data = ['-'] from rfl, List.mem_singleton] at h1
      rw [h1]
      decide
    · exact natStr_chars _ c h2
  · rw [if_neg hn] at h
    exact natStr_chars _ c h

theorem ratStr_chars (q : Rat) : ∀ c ∈ (ratStr q).data, c.toNat < 58 := by
  intro c h
  unfold ratStr at h
  by_cases hd : q.den = 1
  · rw [if_pos hd] at h
    exact intStr_chars _ c h
  · rw [if_neg hd, String.data_append, String.data_append] at h
    rcases List.mem_append.mp h with h1 | h2
    · rcases List.mem_append.mp h1 with h3 | h4
      · exact intStr_chars _ c h3
      · simp only [show ("/" : String).data = ['/'] from rfl, List.mem_singleton] at h4
        rw [h4]
        decide
    · exact natStr_chars _ c h2

theorem isSubAt_self_append : ∀ p r : List Char, isSubAt p (p ++ r) = true := by
  intro p
  induction p with
  | nil => intro r; rfl
  | cons a ps ih =>
    intro r
    show (a == a && isSubAt ps (ps ++ r)) = true
    rw [beq_self_eq_true, ih r, Bool.and_self]

theorem containsSub_of_start (p r : List Char) : containsSub p (p ++ r) = true := by
  cases hp : p ++ r with
  | nil =>
    have : p = [] := by
      cases p
      · rfl
      · simp at hp
    rw [this]
    rfl
  | cons c cs =>
    show (isSubAt p (c :: cs) || containsSub p cs) = true
    rw [← hp, isSubAt_self_append, Bool.true_or]

theorem isSubAt_no_first (ps : List Char) :
    ∀ s : List Char, (∀ c ∈ s, c ≠ 'D') → isSubAt ('D' :: ps) s = false := by
  intro s hs
  cases s with
  | nil => rfl
  | cons c cs =>
    show ('D' == c && isSubAt ps cs) = false
    have : ('D' == c) = false := by
      rw [beq_eq_false_iff_ne]
      intro hc
      exact hs c (List.mem_cons_self c cs) hc.symm
    rw [this, Bool.false_and]

theorem containsSub_dup_false (s : List Char) (hs : ∀ c ∈ s, c ≠ 'D') :
    containsSub "Duplicate".data s = false := by
  induction s with
  | nil => rfl
  | cons c cs ih =>
    show (isSubAt "Duplicate".data (c :: cs) || containsSub "Duplicate".data cs) = false
    rw [show ("Duplicate".data : List Char) = 'D' :: "uplicate".data from rfl]
    rw [isSubAt_no_first _ (c :: cs) hs, Bool.false_or]
    rw [show ('D' :: "uplicate".data : List Char) = "Duplicate".data from rfl]
    exact ih (fun d hd => hs d (List.mem_cons_of_mem c hd))

theorem requiredFieldIssues_nil (r : WeatherRecord)
    (hc : r.city ≠ none) (hco : r.country ≠ none) (ht : r.temp_c ≠ none)
    (hh : r.humidity ≠ none) (hcond : r.condition ≠ none) :
    requiredFieldIssues r = [] := by
  unfold requiredFieldIssues
  rw [if_neg hc, if_neg hco, if_neg ht, if_neg hh, if_neg hcond]
  rfl

theorem validate_eq_of_present (r : WeatherRecord) (t h : Rat)
    (hc : r.city ≠ none) (hco : r.country ≠ none) (hcond : r.condition ≠ none)
    (ht : r.temp_c = some t) (hh : r.humidity = some h) :
    validate_weather_record r =
      (let base :=
        (if (validate_temperature (some t)).1 then [] else [(validate_temperature (some t)).2]) ++
        (if (validate_humidity (some h)).1 then [] else [(validate_humidity (some h)).2]) ++
        (if (validate_wind_speed r.wind_speed_kmph).1 then []
          else [(validate_wind_speed r.wind_speed_kmph).2])
      let issues :=
        match r.feels_like_c with
        | some fl => if (30 : Rat) < rdist fl t then base ++ [feelsMsg (rdist fl t)] else base
        | none => base
      (issues.isEmpty, issues)) := by
  have hreq : requiredFieldIssues r = [] :=
    requiredFieldIssues_nil r hc hco (by rw [ht]; simp) (by rw [hh]; simp) hcond
  unfold validate_weather_record
  rw [hreq, ht, hh]
  cases hfl : r.feels_like_c with
  | none => simp
  | some fl => simp

theorem validate_temperature_valid (t : Rat) (h1 : -90 ≤ t) (h2 : t ≤ 60) :
    validate_temperature (some t) = (true, "Valid") := by
  simp only [validate_temperature]
  rw [if_neg (not_or.mpr ⟨not_lt.mpr h1, not_lt.mpr h2⟩)]

theorem validate_humidity_valid (h : Rat) (h1 : 0 ≤ h) (h2 : h ≤ 100) :
    validate_humidity (some h) = (true, "Valid") := by
  simp only [validate_humidity]
  rw [if_neg (not_or.mpr ⟨not_lt.mpr h1, not_lt.mpr h2⟩)]

theorem validate_wind_speed_valid (w : Rat) (h1 : 0 ≤ w) (h2 : w ≤ 500) :
    validate_wind_speed (some w) = (true, "Valid") := by
  simp only [validate_wind_speed]
  rw [if_neg (not_or.mpr ⟨not_lt.mpr h1, not_lt.mpr h2⟩)]

theorem validate_wind_missing (r : WeatherRecord) (t h : Rat)
    (hc : r.city ≠ none) (hco : r.country ≠ none) (hcond : r.condition ≠ none)
    (ht : r.temp_c = some t) (hh : r.humidity = some h)
    (ht1 : -90 ≤ t) (ht2 : t ≤ 60) (hh1 : 0 ≤ h) (hh2 : h ≤ 100)
    (hw : r.wind_speed_kmph = none) :
    (validate_weather_record r).1 = false ∧
      "Wind speed is missing" ∈ (validate_weather_record r).2 := by
  rw [validate_eq_of_present r t h hc hco hcond ht hh]
  rw [validate_temperature_valid t ht1 ht2, validate_humidity_valid h hh1 hh2, hw]
  have hwv : validate_wind_speed none = (false, "Wind speed is missing") := rfl
  cases hfl : r.feels_like_c with
  | none => simp [hwv]
  | some fl =>
    by_cases hgt : (30 : Rat) < rdist fl t
    · simp [hwv, hgt]
    · simp [hwv, hgt]

theorem validate_missing_condition (r : WeatherRecord)
    (hc : r.city ≠ none) (hco : r.country ≠ none) (ht : r.temp_c ≠ none)
    (hh : r.humidity ≠ none) (hcond : r.condition = none) :
    validate_weather_record r = (false, ["Missing required field: condition"]) := by
  have hreq : requiredFieldIssues r = [missingFieldMsg "condition"] := by
    unfold requiredFieldIssues
    rw [if_neg hc, if_neg hco, if_neg ht, if_neg hh, if_pos hcond]
    rfl
  unfold validate_weather_record
  rw [hreq]
  rfl

theorem validate_feels_gap (r : WeatherRecord) (t h w fl : Rat)
    (hc : r.city ≠ none) (hco : r.country ≠ none) (hcond : r.condition ≠ none)
    (ht : r.temp_c = some t) (hh : r.humidity = some h) (hw : r.wind_speed_kmph = some w)
    (ht1 : -90 ≤ t) (ht2 : t ≤ 60) (hh1 : 0 ≤ h) (hh2 : h ≤ 100)
    (hw1 : 0 ≤ w) (hw2 : w ≤ 500)
    (hfl : r.feels_like_c = some fl) (hgap : (30 : Rat) < |fl - t|) :
    validate_weather_record r = (false, [feelsMsg |fl - t|]) := by
  rw [validate_eq_of_present r t h hc hco hcond ht hh]
  rw [validate_temperature_valid t ht1 ht2, validate_humidity_valid h hh1 hh2,
    hw, validate_wind_speed_valid w hw1 hw2, hfl]
  have hr : rdist fl t = |fl - t| := rdist_eq fl t
  simp [hr, hgap]

theorem validate_temperature_iff (t : Rat) :
    (validate_temperature (some t)).1 = true ↔ (-90 ≤ t ∧ t ≤ 60) := by
  simp only [validate_temperature]
  by_cases hcond : t < -90 ∨ 60 < t
  · rw [if_pos hcond]
    constructor
    · intro hfalse
      exact absurd hfalse (by simp)
    · rintro ⟨h1, h2⟩
      rcases hcond with hx | hx
      · linarith
      · linarith
  · rw [if_neg hcond]
    push_neg at hcond
    simp only [true_iff]
    exact ⟨by linarith [hcond.1], by linarith [hcond.2]⟩

theorem cleanStrField_idem (f : String → String) (hf : ∀ s, f (f s) = f s) :
    ∀ o : Option String, cleanStrField f (cleanStrField f o) = cleanStrField f o := by
  intro o
  cases o with
  | none => rfl
  | some s =>
    by_cases hs : s = ""
    · have h1 : cleanStrField f (some s) = some s := by
        simp only [cleanStrField]
        rw [if_pos hs]
      rw [h1, h1]
    · have h1 : cleanStrField f (some s) = some (f s) := by
        simp only [cleanStrField]
        rw [if_neg hs]
      rw [h1]
      by_cases hfs : f s = ""
      · simp only [cleanStrField]
        rw [if_pos hfs]
      · simp only [cleanStrField]
        rw [if_neg hfs, hf]

theorem optionMap_idem {α : Type} {f : α → α} (hf : ∀ x, f (f x) = f x) (o : Option α) :
    (o.map f).map f = o.map f := by
  cases o with
  | none => rfl
  | some x => simp [hf]

theorem pyIntCast_idem (x : Rat) :
    ((pyInt ((pyInt x : Int) : Rat) : Int) : Rat) = ((pyInt x : Int) : Rat) := by
  rw [pyInt_intCast]

theorem clean_weather_record_idem (r : WeatherRecord) :
    clean_weather_record (clean_weather_record r) = clean_weather_record r := by
  unfold clean_weather_record
  congr 1
  · exact cleanStrField_idem _ pyStripTitle_idem _
  · exact cleanStrField_idem _ pyStrip_idem _
  · exact optionMap_idem pyRound1_idem _
  · exact optionMap_idem pyRound1_idem _
  · exact cleanStrField_idem _ pyStripTitle_idem _
  · exact optionMap_idem pyIntCast_idem _
  · exact optionMap_idem pyRound1_idem _
  · exact optionMap_idem pyIntCast_idem _

theorem ratStr_no_D (q : Rat) : ∀ c ∈ (ratStr q).data, c ≠ 'D' := by
  intro c hc hd
  have := ratStr_chars q c hc
  rw [hd] at this
  exact absurd this (by decide)

theorem natStr_no_D (n : Nat) : ∀ c ∈ (natStr n).data, c ≠ 'D' := by
  intro c hc hd
  have := natStr_chars n c hc
  rw [hd] at this
  exact absurd this (by decide)

theorem missingFieldMsg_no_D (f : String) (hf : ∀ c ∈ f.data, c ≠ 'D') :
    ∀ c ∈ (missingFieldMsg f).data, c ≠ 'D' := by
  intro c hc
  unfold missingFieldMsg at hc
  rw [String.data_append] at hc
  rcases List.mem_append.mp hc with h1 | h2
  · intro hd
    rw [hd] at h1
    exact absurd h1 (by decide)
  · exact hf c h2

theorem tempRangeMsg_no_D (t : Rat) : ∀ c ∈ (tempRangeMsg t).data, c ≠ 'D' := by
  intro c hc
  unfold tempRangeMsg at hc
  rw [String.data_append, String.data_append] at hc
  rcases List.mem_append.mp hc with h1 | h2
  · rcases List.mem_append.mp h1 with h3 | h4
    · intro hd
      rw [hd] at h3
      exact absurd h3 (by decide)
    · exact ratStr_no_D t c h4
  · intro hd
    rw [hd] at h2
    exact absurd h2 (by decide)

theorem humRangeMsg_no_D (h : Rat) : ∀ c ∈ (humRangeMsg h).data, c ≠ 'D' := by
  intro c hc
  unfold humRangeMsg at hc
  rw [String.data_append, String.data_append] at hc
  rcases List.mem_append.mp hc with h1 | h2
  · rcases List.mem_append.mp h1 with h3 | h4
    · intro hd
      rw [hd] at h3
      exact absurd h3 (by decide)
    · exact ratStr_no_D h c h4
  · intro hd
    rw [hd] at h2
    exact absurd h2 (by decide)

theorem windRangeMsg_no_D (w : Rat) : ∀ c ∈ (windRangeMsg w).data, c ≠ 'D' := by
  intro c hc
  unfold windRangeMsg at hc
  rw [String.data_append, String.data_append] at hc
  rcases List.mem_append.mp hc with h1 | h2
  · rcases List.mem_append.mp h1 with h3 | h4
    · intro hd
      rw [hd] at h3
      exact absurd h3 (by decide)
    · exact ratStr_no_D w c h4
  · intro hd
    rw [hd] at h2
    exact absurd h2 (by decide)

theorem feelsMsg_no_D (d : Rat) : ∀ c ∈ (feelsMsg d).data, c ≠ 'D' := by
  intro c hc
  unfold feelsMsg at hc
  rw [String.data_append, String.data_append] at hc
  rcases List.mem_append.mp hc with h1 | h2
  · rcases List.mem_append.mp h1 with h3 | h4
    · intro hd
      rw [hd] at h3
      exact absurd h3 (by decide)
    · exact ratStr_no_D d c h4
  · intro hd
    rw [hd] at h2
    exact absurd h2 (by decide)

theorem validate_temperature_no_D (o : Option Rat) :
    ∀ c ∈ (validate_temperature o).2.data, c ≠ 'D' := by
  cases o with
  | none =>
    intro c hc hd
    rw [hd] at hc
    exact absurd hc (by decide)
  | some t =>
    simp only [validate_temperature]
    by_cases hcond : t < -90 ∨ 60 < t
    · rw [if_pos hcond]
      exact tempRangeMsg_no_D t
    · rw [if_neg hcond]
      intro c hc hd
      rw [hd] at hc
      exact absurd hc (by decide)

theorem validate_humidity_no_D (o : Option Rat) :
    ∀ c ∈ (validate_humidity o).2.data, c ≠ 'D' := by
  cases o with
  | none =>
    intro c hc hd
    rw [hd] at hc
    exact absurd hc (by decide)
  | some h =>
    simp only [validate_humidity]
    by_cases hcond : h < 0 ∨ 100 < h
    · rw [if_pos hcond]
      exact humRangeMsg_no_D h
    · rw [if_neg hcond]
      intro c hc hd
      rw [hd] at hc
      exact absurd hc (by decide)

theorem validate_wind_speed_no_D (o : Option Rat) :
    ∀ c ∈ (validate_wind_speed o).2.data, c ≠ 'D' := by
  cases o with
  | none =>
    intro c hc hd
    rw [hd] at hc
    exact absurd hc (by decide)
  | some w =>
    simp only [validate_wind_speed]
    by_cases hcond : w < 0 ∨ 500 < w
    · rw [if_pos hcond]
      exact windRangeMsg_no_D w
    · rw [if_neg hcond]
      intro c hc hd
      rw [hd] at hc
      exact absurd hc (by decide)

theorem requiredFieldIssues_no_D (r : WeatherRecord) :
    ∀ m ∈ requiredFieldIssues r, ∀ c ∈ m.data, c ≠ 'D' := by
  intro m hm
  unfold requiredFieldIssues at hm
  have lit : ∀ f : String, (∀ c ∈ f.data, c ≠ 'D') → m ∈ [missingFieldMsg f] →
      ∀ c ∈ m.data, c ≠ 'D' := by
    intro f hf hmem
    rw [List.mem_singleton] at hmem
    rw [hmem]
    exact missingFieldMsg_no_D f hf
  rcases List.mem_append.mp hm with h | h5
  rotate_left
  · split at h5
    · exact lit _ (by decide) h5
    · simp at h5
  rcases List.mem_append.mp h with h | h4
  rotate_left
  · split at h4
    · exact lit _ (by decide) h4
    · simp at h4
  rcases List.mem_append.mp h with h | h3
  rotate_left
  · split at h3
    · exact lit _ (by decide) h3
    · simp at h3
  rcases List.mem_append.mp h with h1 | h2
  · split at h1
    · exact lit _ (by decide) h1
    · simp at h1
  · split at h2
    · exact lit _ (by decide) h2
    · simp at h2

theorem mem_ite_nil_singleton {α : Type} {c : Prop} [Decidable c] {x m : α}
    (h : m ∈ (if c then ([] : List α) else [x])) : m = x := by
  split at h
  · simp at h
  · simpa using h

theorem validate_no_D (r : WeatherRecord) :
    ∀ m ∈ (validate_weather_record r).2, ∀ c ∈ m.data, c ≠ 'D' := by
  intro m hm
  unfold validate_weather_record at hm
  by_cases hreq : (requiredFieldIssues r).isEmpty = true
  · have hnil : requiredFieldIssues r = [] := by rwa [List.isEmpty_iff] at hreq
    rw [if_pos hreq] at hm
    dsimp only at hm
    rw [hnil] at hm
    cases hfl : r.feels_like_c with
    | none =>
      rw [hfl] at hm
      dsimp only at hm
      simp only [List.nil_append, List.mem_append] at hm
      rcases hm with (h1 | h2) | h3
      · rw [mem_ite_nil_singleton h1]
        exact validate_temperature_no_D r.temp_c
      · rw [mem_ite_nil_singleton h2]
        exact validate_humidity_no_D r.humidity
      · rw [mem_ite_nil_singleton h3]
        exact validate_wind_speed_no_D r.wind_speed_kmph
    | some fl =>
      cases htc : r.temp_c with
      | none =>
        rw [hfl, htc] at hm
        dsimp only at hm
        simp only [List.nil_append, List.mem_append] at hm
        rcases hm with (h1 | h2) | h3
        · rw [mem_ite_nil_singleton h1]
          exact validate_temperature_no_D none
        · rw [mem_ite_nil_singleton h2]
          exact validate_humidity_no_D r.humidity
        · rw [mem_ite_nil_singleton h3]
          exact validate_wind_speed_no_D r.wind_speed_kmph
      | some t =>
        rw [hfl, htc] at hm
        dsimp only at hm
        by_cases hgap : (30 : Rat) < rdist fl t
        · rw [if_pos hgap] at hm
          simp only [List.nil_append, List.mem_append] at hm
          rcases hm with ((h1 | h2) | h3) | h4
          · rw [mem_ite_nil_singleton h1]
            exact validate_temperature_no_D (some t)
          · rw [mem_ite_nil_singleton h2]
            exact validate_humidity_no_D r.humidity
          · rw [mem_ite_nil_singleton h3]
            exact validate_wind_speed_no_D r.wind_speed_kmph
          · rw [List.mem_singleton.mp h4]
            exact feelsMsg_no_D (rdist fl t)
        · rw [if_neg hgap] at hm
          simp only [List.nil_append, List.mem_append] at hm
          rcases hm with (h1 | h2) | h3
          · rw [mem_ite_nil_singleton h1]
            exact validate_temperature_no_D (some t)
          · rw [mem_ite_nil_singleton h2]
            exact validate_humidity_no_D r.humidity
          · rw [mem_ite_nil_singleton h3]
            exact validate_wind_speed_no_D r.wind_speed_kmph
  · rw [if_neg hreq] at hm
    dsimp only at hm
    exact requiredFieldIssues_no_D r m hm

theorem hasDupIssue_eq_false (issues : List String)
    (h : ∀ m ∈ issues, ∀ c ∈ m.data, c ≠ 'D') : hasDupIssue issues = false := by
  unfold hasDupIssue
  rw [List.any_eq_false]
  intro m hm
  rw [containsSub_dup_false m.data (h m hm)]
  simp

theorem validate_noDup (r : WeatherRecord) :
    hasDupIssue (validate_weather_record r).2 = false :=
  hasDupIssue_eq_false _ (validate_no_D r)

theorem hasDupIssue_append_dupMsg (l : List String) (i : Nat) :
    hasDupIssue (l ++ [dupMsg i]) = true := by
  unfold hasDupIssue
  rw [List.any_append]
  have hstart : containsSub "Duplicate".data (dupMsg i).data = true := by
    unfold dupMsg
    rw [String.data_append]
    rw [show ("Duplicate of record " : String).data = "Duplicate".data ++ " of record ".data
      from rfl]
    rw [List.append_assoc]
    exact containsSub_of_start _ _
  simp [hstart]

theorem validate_fst (r : WeatherRecord) :
    (validate_weather_record r).1 = (validate_weather_record r).2.isEmpty := by
  unfold validate_weather_record
  by_cases hreq : (requiredFieldIssues r).isEmpty = true
  · rw [if_pos hreq]
  · rw [if_neg hreq]
    dsimp only
    exact (Bool.eq_false_iff.mpr hreq).symm

theorem validate_snd_nil_of_fst (r : WeatherRecord)
    (h : (validate_weather_record r).1 = true) : (validate_weather_record r).2 = [] := by
  have hf := validate_fst r
  rw [h] at hf
  exact List.isEmpty_iff.mp hf.symm

theorem run_etl_extract_fail (db : List StoredRow) (stats : PipelineStats) :
    run_etl none db stats =
      (⟨stats.attempted + 1, stats.succeeded, stats.failed + 1, stats.validation_errors,
        stats.duplicates⟩, false, db) := rfl

theorem run_etl_parse_fail (db : List StoredRow) (stats : PipelineStats) :
    run_etl (some none) db stats =
      (⟨stats.attempted + 1, stats.succeeded, stats.failed + 1, stats.validation_errors,
        stats.duplicates⟩, false, db) := rfl

theorem hasDupIssue_dupMsg (i : Nat) : hasDupIssue [dupMsg i] = true := by
  have h := hasDupIssue_append_dupMsg [] i
  simpa using h

theorem run_etl_parsed_eq (raw : WeatherRecord) (db : List StoredRow) (stats : PipelineStats) :
    run_etl (some (some raw)) db stats =
      (⟨stats.attempted + 1,
        stats.succeeded +
          (if (validate_weather_record (clean_weather_record raw)).1 = true ∧
              (check_for_duplicate db (calculate_derived_fields (clean_weather_record raw))).1
                = false ∧
              (save_weather_data db (calculate_derived_fields (clean_weather_record raw))).1
                = true then 1 else 0),
        stats.failed,
        stats.validation_errors +
          (if (validate_weather_record (clean_weather_record raw)).1 = true then 0 else 1),
        stats.duplicates +
          (if (check_for_duplicate db (calculate_derived_fields (clean_weather_record raw))).1
              = true then 1 else 0)⟩,
       (if (validate_weather_record (clean_weather_record raw)).1 = true ∧
            (check_for_duplicate db (calculate_derived_fields (clean_weather_record raw))).1
              = false
        then (save_weather_data db (calculate_derived_fields (clean_weather_record raw))).1
        else false),
       (if (validate_weather_record (clean_weather_record raw)).1 = true ∧
            (check_for_duplicate db (calculate_derived_fields (clean_weather_record raw))).1
              = false
        then (save_weather_data db (calculate_derived_fields (clean_weather_record raw))).2
        else db)) := by
  unfold run_etl
  dsimp only
  by_cases hv : (validate_weather_record (clean_weather_record raw)).1 = true
  · have hnil := validate_snd_nil_of_fst _ hv
    by_cases hd :
        (check_for_duplicate db (calculate_derived_fields (clean_weather_record raw))).1 = true
    · simp [hv, hd, hnil, load_weather_data, hasDupIssue_append_dupMsg, hasDupIssue_dupMsg]
    · simp only [hv, hd, hnil, if_true, if_false]
      simp [load_weather_data, validate_noDup, hv, hd,
        show hasDupIssue [] = false from rfl]
      by_cases hs :
          (save_weather_data db (calculate_derived_fields (clean_weather_record raw))).1 = true
      · simp [hs]
      · simp [hs]
  · by_cases hd :
        (check_for_duplicate db (calculate_derived_fields (clean_weather_record raw))).1 = true
    · simp [hv, hd, load_weather_data, hasDupIssue_append_dupMsg]
    · simp [hv, hd, load_weather_data, validate_noDup]

theorem run_etl_snd_stats (x : Option (Option WeatherRecord)) (db : List StoredRow)
    (stats : PipelineStats) : (run_etl x db stats).2 = (run_etl x db zeroStats).2 := by
  cases x with
  | none => rfl
  | some y =>
    cases y with
    | none => rfl
    | some raw => rfl

theorem run_etl_success_stats (x : Option (Option WeatherRecord)) (db : List StoredRow)
    (stats : PipelineStats) (h : (run_etl x db stats).2.1 = true) :
    (run_etl x db stats).1 =
      ⟨stats.attempted + 1, stats.succeeded + 1, stats.failed, stats.validation_errors,
        stats.duplicates⟩ := by
  cases x with
  | none =>
    rw [run_etl_extract_fail] at h
    simp at h
  | some y =>
    cases y with
    | none =>
      rw [run_etl_parse_fail] at h
      simp at h
    | some raw =>
      rw [run_etl_parsed_eq] at h
      dsimp only at h
      rw [run_etl_parsed_eq]
      by_cases hVD : (validate_weather_record (clean_weather_record raw)).1 = true ∧
          (check_for_duplicate db (calculate_derived_fields (clean_weather_record raw))).1 = false
      · rw [if_pos hVD] at h
        simp [hVD.1, hVD.2, h]
      · rw [if_neg hVD] at h
        simp at h

theorem run_batch_allOk (xs : List (Option (Option WeatherRecord))) :
    ∀ (db : List StoredRow) (stats : PipelineStats), allLoadOk xs db = true →
      run_batch_etl xs db stats =
        (⟨stats.attempted + xs.length, stats.succeeded + xs.length, stats.failed,
          stats.validation_errors, stats.duplicates⟩, dbAfter xs db) := by
  induction xs with
  | nil =>
    intro db stats _
    simp [run_batch_etl, dbAfter]
  | cons x rest ih =>
    intro db stats h
    unfold allLoadOk at h
    rw [Bool.and_eq_true] at h
    obtain ⟨h1, h2⟩ := h
    have hsucc : (run_etl x db stats).2.1 = true := by
      rw [run_etl_snd_stats]
      exact h1
    have hdb : (run_etl x db stats).2.2 = (run_etl x db zeroStats).2.2 := by
      rw [run_etl_snd_stats]
    show run_batch_etl rest (run_etl x db stats).2.2 (run_etl x db stats).1 = _
    rw [hdb, run_etl_success_stats x db stats hsucc, ih _ _ h2]
    simp [dbAfter, List.length_cons, Nat.add_assoc, Nat.add_comm, Nat.add_left_comm]

theorem run_batch_append (xs ys : List (Option (Option WeatherRecord))) :
    ∀ (db : List StoredRow) (stats : PipelineStats),
      run_batch_etl (xs ++ ys) db stats =
        run_batch_etl ys (run_batch_etl xs db stats).2 (run_batch_etl xs db stats).1 := by
  induction xs with
  | nil => intro db stats; rfl
  | cons x rest ih =>
    intro db stats
    show run_batch_etl (rest ++ ys) _ _ = _
    rw [ih]
    rfl

/-! ### Claims -/

/-- C1 (counterexample): on the end-to-end scenario input, validation of the
cleaned record does NOT pass — the record has no wind speed, and
`validate_weather_record` checks wind speed unconditionally, so isValid is
false, contradicting the claim's "validation passes". -/
theorem c1_counterexample :
    c1Input.temp_c = some (25.567 : Rat) ∧ c1Input.humidity = some (65.7 : Rat) ∧
    c1Input.wind_speed_kmph = none ∧
    (validate_weather_record (clean_weather_record c1Input)).1 = false ∧
    "Wind speed is missing" ∈ (validate_weather_record (clean_weather_record c1Input)).2 := by
  refine ⟨?_, ?_, by decide, by decide, by decide⟩
  · rw [show (25.567 : Rat) = mkRat 25567 1000 by norm_num [Rat.mkRat_eq_div]]
    rfl
  · rw [show (65.7 : Rat) = mkRat 657 10 by norm_num [Rat.mkRat_eq_div]]
    rfl

/-- C1 (amended): cleaning yields city "Athens", temp 25.6, humidity 65,
condition "Partly Cloudy" with country "GREECE" unchanged; validation then
returns isValid=false with the single issue "Wind speed is missing" (the
input carries no wind speed); enrichment of the cleaned record yields
heat_category "Warm" and comfort_level "Moderate". -/
theorem c1_amended :
    (clean_weather_record c1Input).city = some "Athens" ∧
    (clean_weather_record c1Input).country = some "GREECE" ∧
    (clean_weather_record c1Input).temp_c = some (25.6 : Rat) ∧
    (clean_weather_record c1Input).humidity = some (65 : Rat) ∧
    (clean_weather_record c1Input).condition = some "Partly Cloudy" ∧
    validate_weather_record (clean_weather_record c1Input) =
      (false, ["Wind speed is missing"]) ∧
    (calculate_derived_fields (clean_weather_record c1Input)).heat_category = some "Warm" ∧
    (calculate_derived_fields (clean_weather_record c1Input)).comfort_level = some "Moderate" := by
  refine ⟨by decide, by decide, ?_, by decide, by decide, by decide, by decide, by decide⟩
  rw [show (25.6 : Rat) = mkRat 256 10 by norm_num [Rat.mkRat_eq_div]]
  decide

/-- C2: a record with the five required fields present, temperature and
humidity in range, but no wind-speed field, is invalid with the issue
"Wind speed is missing": absence of wind speed invalidates even though
wind speed is not a required field. -/
theorem c2_wind_missing_invalidates (r : WeatherRecord) (t h : Rat)
    (hc : r.city ≠ none) (hco : r.country ≠ none) (hcond : r.condition ≠ none)
    (ht : r.temp_c = some t) (hh : r.humidity = some h)
    (ht1 : -90 ≤ t) (ht2 : t ≤ 60) (hh1 : 0 ≤ h) (hh2 : h ≤ 100)
    (hw : r.wind_speed_kmph = none) :
    (validate_weather_record r).1 = false ∧
      "Wind speed is missing" ∈ (validate_weather_record r).2 :=
  validate_wind_missing r t h hc hco hcond ht hh ht1 ht2 hh1 hh2 hw

/-- C2 (witness): the in-range record without wind speed is rejected with
the wind-speed issue. -/
theorem c2_witness :
    (validate_weather_record noWindRaw).1 = false ∧
      "Wind speed is missing" ∈ (validate_weather_record noWindRaw).2 :=
  c2_wind_missing_invalidates noWindRaw (mkRat 255 10) (mkRat 65 1)
    (by decide) (by decide) (by decide) (by decide) (by decide)
    (by decide) (by decide) (by decide) (by decide) (by decide)

/-- C3 (counterexample): a record whose required fields are present and whose
temperature, humidity and wind speed all pass their range checks, but whose
feels-like differs from the actual temperature by more than 30 °C, is
rejected (isValid=false) with that gap as its only issue — the claim's
"still returns isValid=true" fails on this input. -/
theorem c3_counterexample :
    (validate_temperature gapInput.temp_c).1 = true ∧
    (validate_humidity gapInput.humidity).1 = true ∧
    (validate_wind_speed gapInput.wind_speed_kmph).1 = true ∧
    gapInput.feels_like_c = some (-15 : Rat) ∧ gapInput.temp_c = some (20 : Rat) ∧
    (30 : Rat) < |(-15 : Rat) - (20 : Rat)| ∧
    (validate_weather_record gapInput).1 = false ∧
    (validate_weather_record gapInput).2.length = 1 := by
  refine ⟨by decide, by decide, by decide, ?_, ?_, by norm_num, by decide, by decide⟩
  · rw [show (-15 : Rat) = mkRat (-15) 1 by norm_num [Rat.mkRat_eq_div]]
    rfl
  · rw [show (20 : Rat) = mkRat 20 1 by norm_num [Rat.mkRat_eq_div]]
    rfl

/-- C3 (amended): when the feels-like/actual gap above 30 °C is the only
anomaly of an otherwise fully valid record, `validate_weather_record`
returns isValid=false with exactly that gap message as its single issue:
the gap by itself invalidates the record. -/
theorem c3_amended (r : WeatherRecord) (t h w fl : Rat)
    (hc : r.city ≠ none) (hco : r.country ≠ none) (hcond : r.condition ≠ none)
    (ht : r.temp_c = some t) (hh : r.humidity = some h) (hw : r.wind_speed_kmph = some w)
    (ht1 : -90 ≤ t) (ht2 : t ≤ 60) (hh1 : 0 ≤ h) (hh2 : h ≤ 100)
    (hw1 : 0 ≤ w) (hw2 : w ≤ 500)
    (hfl : r.feels_like_c = some fl) (hgap : (30 : Rat) < |fl - t|) :
    validate_weather_record r = (false, [feelsMsg |fl - t|]) :=
  validate_feels_gap r t h w fl hc hco hcond ht hh hw ht1 ht2 hh1 hh2 hw1 hw2 hfl hgap

/-- C3 (witness): the gap record is rejected with the gap message alone. -/
theorem c3_witness :
    validate_weather_record gapInput = (false, [feelsMsg |(-15 : Rat) - (20 : Rat)|]) := by
  have h := c3_amended gapInput (mkRat 20 1) (mkRat 50 1) (mkRat 10 1) (mkRat (-15) 1)
    (by decide) (by decide) (by decide) (by decide) (by decide) (by decide)
    (by decide) (by decide) (by decide) (by decide) (by decide) (by decide) (by decide)
    (by rw [show |mkRat (-15) 1 - mkRat 20 1| = (35 : Rat) by norm_num [Rat.mkRat_eq_div]]
        norm_num)
  rw [h]
  rw [show |mkRat (-15) 1 - mkRat 20 1| = |(-15 : Rat) - (20 : Rat)| by
    norm_num [Rat.mkRat_eq_div]]

/-- C5: a record whose condition is missing while city, country, temp_c and
humidity are present fails validation with exactly the one issue
"Missing required field: condition", whatever the (possibly out-of-range)
values of temperature, humidity and wind speed. -/
theorem c5_missing_condition_short_circuits (r : WeatherRecord)
    (hc : r.city ≠ none) (hco : r.country ≠ none) (ht : r.temp_c ≠ none)
    (hh : r.humidity ≠ none) (hcond : r.condition = none) :
    validate_weather_record r = (false, ["Missing required field: condition"]) :=
  validate_missing_condition r hc hco ht hh hcond

/-- C5 (witness): the condition-less record with temp 150, humidity 200 and
wind −10 still reports only the missing-condition issue. -/
theorem c5_witness :
    validate_weather_record noConditionRaw = (false, ["Missing required field: condition"]) :=
  c5_missing_condition_short_circuits noConditionRaw
    (by decide) (by decide) (by decide) (by decide) (by decide)

/-- C6: against a store holding (Athens, Greece, 2025-06-01, 10:00:00) as row
1, a candidate for the same city, country and date at 10:45:00 is reported
as a duplicate of row 1, while one at 12:00:00 (more than one hour away) is
not a duplicate. -/
theorem c6_duplicate_window :
    check_for_duplicate dedupStore dedupNear = (true, some 1) ∧
    check_for_duplicate dedupStore dedupFar = (false, none) := by
  constructor
  · decide
  · decide

/-- C9: for every temperature value t, `validate_temperature` accepts t
exactly when −90 ≤ t ≤ 60; the boundaries −90 and 60 are valid while −90.1
and 60.1 are invalid. -/
theorem c9_temperature_range :
    (∀ t : Rat, (validate_temperature (some t)).1 = true ↔ (-90 ≤ t ∧ t ≤ 60)) ∧
    (validate_temperature (some (-90 : Rat))).1 = true ∧
    (validate_temperature (some (60 : Rat))).1 = true ∧
    (validate_temperature (some (-90.1 : Rat))).1 = false ∧
    (validate_temperature (some (60.1 : Rat))).1 = false := by
  refine ⟨validate_temperature_iff, by decide, by decide, ?_, ?_⟩
  · simp only [validate_temperature]
    rw [if_pos (Or.inl (by norm_num))]
  · simp only [validate_temperature]
    rw [if_pos (Or.inr (by norm_num))]

/-- C9 (witness): 25 °C is accepted. -/
theorem c9_witness : (validate_temperature (some (25 : Rat))).1 = true :=
  (c9_temperature_range.1 25).mpr (by norm_num)

/-- C10: the Normalizer is idempotent — cleaning a record twice yields the
same record as cleaning it once. -/
theorem c10_normalizer_idempotent (r : WeatherRecord) :
    clean_weather_record (clean_weather_record r) = clean_weather_record r :=
  clean_weather_record_idem r

/-- C4 (counterexample): a single run on a record that both fails validation
(missing wind speed) and duplicates a stored observation increments TWO of
the four outcome counters (validation_errors and duplicates), refuting
"exactly one of the four counters is incremented". -/
theorem c4_counterexample :
    (run_etl (some (some dupInvalidRaw)) dedupStore zeroStats).1.attempted = 1 ∧
    fourOf (run_etl (some (some dupInvalidRaw)) dedupStore zeroStats).1 = (0, 0, 1, 1) ∧
    ¬ exactlyOneIncr zeroStats (run_etl (some (some dupInvalidRaw)) dedupStore zeroStats).1 := by
  refine ⟨by decide, by decide, by decide⟩

/-- C4 (amended): every run increments attempted; an extract or parse failure
increments exactly failed; a parsed record increments exactly one of the four
counters when its outcome is pure — succeeded for a valid non-duplicate whose
save succeeds, duplicates for a valid duplicate, validation_errors for an
invalid non-duplicate — but an invalid duplicate increments both
validation_errors and duplicates, and a valid non-duplicate whose save fails
increments none of the four. -/
theorem c4_amended (fetched : Option (Option WeatherRecord)) (db : List StoredRow)
    (stats : PipelineStats) :
    (run_etl fetched db stats).1.attempted = stats.attempted + 1 ∧
    (fetched = none → fourOf (run_etl fetched db stats).1 =
      (stats.succeeded, stats.failed + 1, stats.validation_errors, stats.duplicates)) ∧
    (fetched = some none → fourOf (run_etl fetched db stats).1 =
      (stats.succeeded, stats.failed + 1, stats.validation_errors, stats.duplicates)) ∧
    (∀ raw, fetched = some (some raw) →
      (recInvalid raw = false → recDup db raw = false → recSaveOk db raw = true →
        fourOf (run_etl fetched db stats).1 =
          (stats.succeeded + 1, stats.failed, stats.validation_errors, stats.duplicates)) ∧
      (recInvalid raw = false → recDup db raw = false → recSaveOk db raw = false →
        fourOf (run_etl fetched db stats).1 =
          (stats.succeeded, stats.failed, stats.validation_errors, stats.duplicates)) ∧
      (recInvalid raw = false → recDup db raw = true →
        fourOf (run_etl fetched db stats).1 =
          (stats.succeeded, stats.failed, stats.validation_errors, stats.duplicates + 1)) ∧
      (recInvalid raw = true → recDup db raw = false →
        fourOf (run_etl fetched db stats).1 =
          (stats.succeeded, stats.failed, stats.validation_errors + 1, stats.duplicates)) ∧
      (recInvalid raw = true → recDup db raw = true →
        fourOf (run_etl fetched db stats).1 =
          (stats.succeeded, stats.failed, stats.validation_errors + 1, stats.duplicates + 1))) := by
  refine ⟨?_, ?_, ?_, ?_⟩
  · cases fetched with
    | none => rw [run_etl_extract_fail]
    | some y =>
      cases y with
      | none => rw [run_etl_parse_fail]
      | some raw => rw [run_etl_parsed_eq]
  · intro h
    subst h
    rw [run_etl_extract_fail]
    rfl
  · intro h
    subst h
    rw [run_etl_parse_fail]
    rfl
  · intro raw heq
    subst heq
    refine ⟨?_, ?_, ?_, ?_, ?_⟩
    · intro hI hD hS
      have hv : (validate_weather_record (clean_weather_record raw)).1 = true := by
        simpa [recInvalid] using hI
      have hd := hD
      unfold recDup at hd
      have hs := hS
      unfold recSaveOk at hs
      rw [run_etl_parsed_eq]
      simp [fourOf, hv, hd, hs]
    · intro hI hD hS
      have hv : (validate_weather_record (clean_weather_record raw)).1 = true := by
        simpa [recInvalid] using hI
      have hd := hD
      unfold recDup at hd
      have hs := hS
      unfold recSaveOk at hs
      rw [run_etl_parsed_eq]
      simp [fourOf, hv, hd, hs]
    · intro hI hD
      have hv : (validate_weather_record (clean_weather_record raw)).1 = true := by
        simpa [recInvalid] using hI
      have hd := hD
      unfold recDup at hd
      rw [run_etl_parsed_eq]
      simp [fourOf, hv, hd]
    · intro hI hD
      have hv : (validate_weather_record (clean_weather_record raw)).1 = false := by
        simpa [recInvalid] using hI
      have hd := hD
      unfold recDup at hd
      rw [run_etl_parsed_eq]
      simp [fourOf, hv, hd]
    · intro hI hD
      have hv : (validate_weather_record (clean_weather_record raw)).1 = false := by
        simpa [recInvalid] using hI
      have hd := hD
      unfold recDup at hd
      rw [run_etl_parsed_eq]
      simp [fourOf, hv, hd]

/-- C4 (amended, witness): a failed extraction bumps exactly the failed
counter. -/
theorem c4_amended_witness : fourOf (run_etl none [] zeroStats).1 = (0, 1, 0, 0) := by
  have h := (c4_amended none [] zeroStats).2.1 rfl
  simpa using h

/-- C7: the Loader persists a record exactly when isValid is true, no issue
string flags a duplicate, and the store's insert succeeds; an invalid or
duplicate-flagged record is skipped with the store unchanged; a
uniqueness-key conflict (or NULL key column) makes `save_weather_data`
report false with the store unchanged instead of raising. -/
theorem c7_loader_contract (db : List StoredRow) (r : WeatherRecord) (issues : List String) :
    (load_weather_data db r false issues = (false, db)) ∧
    (hasDupIssue issues = true → load_weather_data db r true issues = (false, db)) ∧
    (hasDupIssue issues = false → load_weather_data db r true issues = save_weather_data db r) ∧
    (∀ c co, r.city = some c → r.country = some co →
      uniqueConflict db c co r.date r.timestamp = true → save_weather_data db r = (false, db)) ∧
    (∀ c co, r.city = some c → r.country = some co →
      uniqueConflict db c co r.date r.timestamp = false →
      save_weather_data db r = (true, db ++ [⟨db.length + 1, c, co, r.date, r.timestamp⟩])) ∧
    ((r.city = none ∨ r.country = none) → save_weather_data db r = (false, db)) := by
  refine ⟨?_, ?_, ?_, ?_, ?_, ?_⟩
  · simp [load_weather_data]
  · intro h
    simp [load_weather_data, h]
  · intro h
    simp [load_weather_data, h]
  · intro c co hc hco hconf
    simp only [save_weather_data, hc, hco]
    rw [if_pos hconf]
  · intro c co hc hco hconf
    simp only [save_weather_data, hc, hco]
    rw [if_neg (by simp [hconf])]
  · intro h
    rcases h with h | h
    · cases hco : r.country <;> simp [save_weather_data, h, hco]
    · cases hc : r.city <;> simp [save_weather_data, h, hc]

/-- C7 (witness): a record whose issue list flags a duplicate is not loaded
and the store is unchanged. -/
theorem c7_witness :
    load_weather_data [] goodRaw true ["Duplicate of record 1"] = (false, []) :=
  (c7_loader_contract [] goodRaw ["Duplicate of record 1"]).2.1 (by decide)

/-- C8: in a batch whose locations are l1 ++ [failing] ++ l2, where the
failing location's extraction yields no data and every location of l1 and l2
loads successfully against the store state it encounters, the run's stats
satisfy attempted = N, failed = 1 and succeeded = N − 1 (N = l1.length + 1 +
l2.length). -/
theorem c8_batch_one_failure (l1 l2 : List (Option (Option WeatherRecord)))
    (db : List StoredRow)
    (h1 : allLoadOk l1 db = true) (h2 : allLoadOk l2 (dbAfter l1 db) = true) :
    (run_batch_etl (l1 ++ none :: l2) db zeroStats).1.attempted = l1.length + 1 + l2.length ∧
    (run_batch_etl (l1 ++ none :: l2) db zeroStats).1.failed = 1 ∧
    (run_batch_etl (l1 ++ none :: l2) db zeroStats).1.succeeded = l1.length + l2.length := by
  rw [run_batch_append, run_batch_allOk l1 db zeroStats h1]
  dsimp only
  rw [show ∀ (db0 : List StoredRow) (s0 : PipelineStats), run_batch_etl (none :: l2) db0 s0 =
      run_batch_etl l2 (run_etl none db0 s0).2.2 (run_etl none db0 s0).1 from fun _ _ => rfl]
  rw [run_etl_extract_fail]
  dsimp only
  rw [run_batch_allOk l2 _ _ h2]
  dsimp only
  refine ⟨?_, ?_, ?_⟩ <;> simp [zeroStats]

/-- C8 (witness): one good location followed by one failed extraction gives
attempted 2, failed 1, succeeded 1. -/
theorem c8_witness :
    (run_batch_etl [some (some goodRaw), none] [] zeroStats).1.attempted = 2 ∧
    (run_batch_etl [some (some goodRaw), none] [] zeroStats).1.failed = 1 ∧
    (run_batch_etl [some (some goodRaw), none] [] zeroStats).1.succeeded = 1 := by
  have h := c8_batch_one_failure [some (some goodRaw)] [] [] (by decide) (by decide)
  simpa using h
